import Mathlib

set_option maxHeartbeats 1000000

/- Shallow embedding of the cross-origin messaging code of the
unified-pos-intelligence-sdk repository, together with theorems settling the
spec's claims about it.

Embedded sources:
* packages/iframe/src/lib/communication.ts — class CommunicationManager
  (the Client-side listener, handshake handling, outbound postMessage,
  the handler registry used as a Dispatcher).
* the SDK host class UnifiedPOSIntelligence — sendHandshake and
  handleMessage (origin check on inbound events).
* the POS terminal integration example, class POSTerminalIntegration —
  processPayment / handlePaymentComplete (request correlation),
  startHeartbeat / handleConnectionLoss (liveness), destroy (teardown),
  establishSecureChannel (channel establishment message).

Time, timer handles and generated ids are passed explicitly; postMessage,
handler invocation, console logging and DOM/localStorage writes are modelled
as emitted effects. -/

/- ===== Client side: CommunicationManager ===== -/

/-- Payload fields read anywhere by the embedded code: `payload?.apiKey`,
`payload?.features`, `payload?.theme`, `payload?.token`; plus the
`version` field that `handleHandshake` puts into the READY payload. -/
structure Payload where
  apiKey : Option String := none
  features : Option (List (String × Bool)) := none
  theme : Option String := none
  token : Option String := none
  version : Option String := none
deriving Repr, DecidableEq

/-- The `Message` interface of communication.ts: `type` required,
`subtype`/`action`/`payload`/`sequence`/`signature` optional,
`timestamp` and `id` required. -/
structure Msg where
  type : String
  subtype : Option String := none
  action : Option String := none
  payload : Option Payload := none
  timestamp : Nat := 0
  id : String := ""
  sequence : Option Nat := none
  signature : Option String := none
deriving Repr, DecidableEq

/-- An inbound `MessageEvent`: its `origin` and its `data`.
`data = none` models `!event.data || typeof event.data !== 'object'`
(the listener returns at once in that case). -/
structure MessageEvent where
  origin : String
  data : Option Msg
deriving Repr, DecidableEq

/-- Observable effects of the CommunicationManager code:
`post m target` is `window.parent.postMessage(m, target)`,
`invoke h m` is calling the registered handler `h` on `m` (handlers are
identified by a number), `setTheme` is the DOM write of `handleConfig`,
`storeToken` is the localStorage write of `handleAuth`. -/
inductive CMEffect where
  | post (m : Msg) (targetOrigin : String)
  | invoke (handlerId : Nat) (m : Msg)
  | setTheme (t : String)
  | storeToken (t : String)
deriving Repr, DecidableEq

/-- JS `Map.set`: replace the value of an existing key in place, else append. -/
def mapSet : List (String × Nat) → String → Nat → List (String × Nat)
  | [], t, h => [(t, h)]
  | (k, v) :: rest, t, h =>
      if k = t then (t, h) :: rest else (k, v) :: mapSet rest t h

/-- JS `Map.delete`: remove the entry with the given key, if present. -/
def mapDelete : List (String × Nat) → String → List (String × Nat)
  | [], _ => []
  | (k, v) :: rest, t => if k = t then rest else (k, v) :: mapDelete rest t

/-- The mutable fields of class CommunicationManager.
`origin` starts as the wildcard `"*"` (source line 13: `private origin:
string = '*'; // Will be set from handshake`), `sequence` at 0, `handlers`
is the `Map<string, handler>` with handlers identified by numbers.
`embedded` models the environment condition `window.parent !== window`
under which `sendMessage` actually posts. -/
structure CMState where
  origin : String := "*"
  sequence : Nat := 0
  apiKey : Option String := none
  features : Option (List (String × Bool)) := none
  handlers : List (String × Nat) := []
  embedded : Bool := true
deriving Repr, DecidableEq

/-- `sendMessage`: stamps `timestamp` (now), a generated `id`, and
`sequence: this.sequence++` (the pre-increment value), then posts the full
message to `this.origin` when `window.parent !== window`. -/
def sendMessage (s : CMState) (m : Msg) (now : Nat) (genId : String) :
    CMState × List CMEffect :=
  let fullMessage : Msg :=
    { type := m.type, subtype := m.subtype, action := m.action,
      payload := m.payload, signature := m.signature,
      timestamp := now, id := genId, sequence := some s.sequence }
  ({ s with sequence := s.sequence + 1 },
   if s.embedded then [CMEffect.post fullMessage s.origin] else [])

/-- `handleHandshake(origin, message)`: unconditionally overwrites
`this.origin` with the event's origin, stores `payload?.apiKey` and
`payload?.features`, then sends `{type: 'READY', payload: {version:
'1.0.0', features: this.features}}` back. -/
def handleHandshake (s : CMState) (origin : String) (m : Msg)
    (now : Nat) (genId : String) : CMState × List CMEffect :=
  let s1 : CMState :=
    { s with origin := origin,
             apiKey := m.payload.bind Payload.apiKey,
             features := m.payload.bind Payload.features }
  sendMessage s1
    { type := "READY",
      payload := some { version := some "1.0.0", features := s1.features } }
    now genId

/-- The message listener installed by `setupMessageListener`: rejects
non-object data, then switches on `message.type` — HANDSHAKE, CONFIG and
AUTH are handled internally, every other type is looked up in `handlers`
and the registered handler (if any) is invoked. Note: the listener never
reads `event.origin` except to forward it to `handleHandshake`. -/
def handleMessageEvent (s : CMState) (e : MessageEvent)
    (now : Nat) (genId : String) : CMState × List CMEffect :=
  match e.data with
  | none => (s, [])
  | some message =>
    if message.type = "HANDSHAKE" then
      handleHandshake s e.origin message now genId
    else if message.type = "CONFIG" then
      (s, match message.payload.bind Payload.theme with
          | some t => [CMEffect.setTheme t]
          | none => [])
    else if message.type = "AUTH" then
      (s, match message.payload.bind Payload.token with
          | some t => [CMEffect.storeToken t]
          | none => [])
    else
      match s.handlers.lookup message.type with
      | some h => (s, [CMEffect.invoke h message])
      | none => (s, [])

/-- `on(type, handler)`: `this.handlers.set(type, handler)`. -/
def CM_on (s : CMState) (t : String) (h : Nat) : CMState :=
  { s with handlers := mapSet s.handlers t h }

/-- `off(type)`: `this.handlers.delete(type)` — note the source takes no
handler argument. -/
def CM_off (s : CMState) (t : String) : CMState :=
  { s with handlers := mapDelete s.handlers t }

/- ===== Host side: UnifiedPOSIntelligence ===== -/

/-- Host-side effects of `UnifiedPOSIntelligence.handleMessage`: the ERROR
branch logs `console.error('Iframe error:', event.data.payload)`; READY
and the default branch do nothing. -/
inductive HostEffect where
  | logIframeError (p : Option Payload)
deriving Repr, DecidableEq

/-- `UnifiedPOSIntelligence.handleMessage(event)`: returns at once when
`event.origin !== this.iframeUrl`, otherwise switches on `event.data.type`
(READY: nothing, ERROR: log, default: nothing). -/
def UPI_handleMessage (iframeUrl : String) (e : MessageEvent) :
    List HostEffect :=
  if e.origin ≠ iframeUrl then []
  else
    match e.data with
    | none => []
    | some m => if m.type = "ERROR" then [HostEffect.logIframeError m.payload] else []

/-- A JSON-ish field value, enough to record the object literals the
handshake code posts. -/
inductive JVal where
  | str (s : String)
  | num (n : Nat)
  | featureFlags (fs : List (String × Bool))
deriving Repr, DecidableEq

/-- The object literal posted by `UnifiedPOSIntelligence.sendHandshake`:
`{type: 'HANDSHAKE', apiKey: this.config.apiKey, features:
this.config.features, timestamp: Date.now()}` — recorded field by field,
in source order. -/
def sendHandshakeMessage (apiKey : String) (features : List (String × Bool))
    (now : Nat) : List (String × JVal) :=
  [("type", JVal.str "HANDSHAKE"), ("apiKey", JVal.str apiKey),
   ("features", JVal.featureFlags features), ("timestamp", JVal.num now)]

/- ===== POS terminal integration: POSTerminalIntegration ===== -/

/-- The object literal posted by
`POSTerminalIntegration.establishSecureChannel` when TERMINAL_READY
arrives: `{type: 'ESTABLISH_CHANNEL', apiKey: this.config.apiKey,
timestamp: Date.now(), nonce: this.generateNonce()}`. -/
def establishChannelMessage (apiKey : String) (now : Nat) (nonce : String) :
    List (String × JVal) :=
  [("type", JVal.str "ESTABLISH_CHANNEL"), ("apiKey", JVal.str apiKey),
   ("timestamp", JVal.num now), ("nonce", JVal.str nonce)]

/-- The fields of a PAYMENT_COMPLETE `data` object that
`handlePaymentComplete` / `validatePaymentData` read. -/
structure PaymentData where
  authorizationCode : Option String := none
  amount : Option Nat := none
  last4 : Option String := none
  cardBrand : Option String := none
  timestamp : Option Nat := none
deriving Repr, DecidableEq

/-- JS truthiness of a possibly-missing string: absent and `""` are falsy. -/
def truthyStr : Option String → Bool
  | none => false
  | some s => s ≠ ""

/-- JS truthiness of a possibly-missing number: absent and `0` are falsy. -/
def truthyNat : Option Nat → Bool
  | none => false
  | some n => n ≠ 0

/-- `validatePaymentData(data)`:
`data.authorizationCode && data.amount && data.timestamp`. -/
def validatePaymentData (d : PaymentData) : Bool :=
  truthyStr d.authorizationCode && truthyNat d.amount && truthyNat d.timestamp

/-- The settlement of one transaction's promise:
`resolved` is `transaction.resolve({success: true, ...})`,
`rejectedInvalidData` is `reject(new Error('Invalid payment data received'))`,
`rejectedTimeout` is `reject(new Error('Transaction timeout'))`,
`rejectedDestroyed` is `reject(new Error('Terminal destroyed'))` — the
teardown (ChannelClosed) rejection. -/
inductive TxnOutcome where
  | resolved (txnId : String) (d : PaymentData)
  | rejectedInvalidData (txnId : String)
  | rejectedTimeout (txnId : String)
  | rejectedDestroyed (txnId : String)
deriving Repr, DecidableEq

/-- Effects of the POSTerminalIntegration code: promise settlements,
the port posts of `sendMessage` (`sendPayment`, `sendHeartbeat`),
`logConnectionLost` for `console.error('Terminal connection lost')`,
`reconnectAttempt` for the `this.reconnect()` call of
`handleConnectionLoss` (a method the source class never defines), and
`threwNotConnected` for the `throw new Error('Terminal not connected')`
in `sendMessage` when the connection state is not 'connected'. -/
inductive PosEffect where
  | outcome (o : TxnOutcome)
  | sendPayment (txnId : String)
  | sendHeartbeat
  | logConnectionLost
  | reconnectAttempt
  | threwNotConnected
deriving Repr, DecidableEq

/-- The mutable fields of class POSTerminalIntegration that the embedded
methods touch. `transactionQueue` holds the ids of pending transactions
(the Map's keys); `activeTimeouts` holds the ids whose per-transaction
`setTimeout` is still armed (neither fired nor cleared); `heartbeatActive`
models the `setInterval` handle being live; `channelOpen` models
`messageChannel.port1` being open (set to false by `destroy`'s
`port1.close()`, after which no port message is delivered). -/
structure POSState where
  connectionState : String := "disconnected"
  transactionQueue : List String := []
  activeTimeouts : List String := []
  heartbeatActive : Bool := false
  lastHeartbeat : Nat := 0
  channelOpen : Bool := false
deriving Repr, DecidableEq

/-- `processPayment`: registers the transaction in `transactionQueue`
with an armed timeout (the generated id is fresh, so the Map `set` is an
insertion), then `sendMessage({type: 'PROCESS_PAYMENT', ...})` — which
posts when connected and throws 'Terminal not connected' otherwise. -/
def processPayment (s : POSState) (txnId : String) : POSState × List PosEffect :=
  let s1 : POSState :=
    { s with transactionQueue := txnId :: s.transactionQueue,
             activeTimeouts := txnId :: s.activeTimeouts }
  if s1.connectionState = "connected" then (s1, [PosEffect.sendPayment txnId])
  else (s1, [PosEffect.threwNotConnected])

/-- `handlePaymentComplete(transactionId, data)`: looks the id up in the
queue (`if (!transaction) return`), then `clearTimeout(transaction.timeout)`,
deletes the entry, and resolves when `validatePaymentData(data)` holds,
else rejects with 'Invalid payment data received'. -/
def handlePaymentComplete (s : POSState) (txnId : String) (d : PaymentData) :
    POSState × List TxnOutcome :=
  if txnId ∈ s.transactionQueue then
    let s1 : POSState :=
      { s with transactionQueue := s.transactionQueue.filter (fun t => t ≠ txnId),
               activeTimeouts := s.activeTimeouts.filter (fun t => t ≠ txnId) }
    if validatePaymentData d then (s1, [TxnOutcome.resolved txnId d])
    else (s1, [TxnOutcome.rejectedInvalidData txnId])
  else (s, [])

/-- The per-transaction timeout callback registered by `processPayment`:
`this.transactionQueue.delete(transactionId); reject(new
Error('Transaction timeout'))`. It runs only while its timer is still
armed (a cleared timer never fires); firing consumes the timer. -/
def fireTransactionTimeout (s : POSState) (txnId : String) :
    POSState × List TxnOutcome :=
  if txnId ∈ s.activeTimeouts then
    ({ s with activeTimeouts := s.activeTimeouts.filter (fun t => t ≠ txnId),
              transactionQueue := s.transactionQueue.filter (fun t => t ≠ txnId) },
     [TxnOutcome.rejectedTimeout txnId])
  else (s, [])

/-- `destroy()`: `clearInterval(heartbeatInterval)`, `port1.close()`
(modelled by `channelOpen := false`; the iframe removal is outside the
model), then for each pending transaction `clearTimeout(timeout)` and
`reject(new Error('Terminal destroyed'))`, then `transactionQueue.clear()`.
Only the timeouts held by queue entries are cleared. -/
def POS_destroy (s : POSState) : POSState × List TxnOutcome :=
  ({ s with heartbeatActive := false,
            channelOpen := false,
            activeTimeouts :=
              s.activeTimeouts.filter (fun t => t ∉ s.transactionQueue),
            transactionQueue := [] },
   s.transactionQueue.map TxnOutcome.rejectedDestroyed)

/-- One tick of the `setInterval` installed by `startHeartbeat` (every
10000 ms): first `this.sendMessage({type: 'HEARTBEAT'})` — which throws
'Terminal not connected' when the state is not 'connected', aborting the
tick — then, if `Date.now() - this.lastHeartbeat > 30000`,
`handleConnectionLoss()`: state to 'disconnected', `console.error`, and a
call to the undefined `this.reconnect()`. -/
def heartbeatTick (s : POSState) (now : Nat) : POSState × List PosEffect :=
  if s.heartbeatActive = false then (s, [])
  else if s.connectionState ≠ "connected" then (s, [PosEffect.threwNotConnected])
  else if now - s.lastHeartbeat > 30000 then
    ({ s with connectionState := "disconnected" },
     [PosEffect.sendHeartbeat, PosEffect.logConnectionLost,
      PosEffect.reconnectAttempt])
  else (s, [PosEffect.sendHeartbeat])

/-- Events that can reach a POSTerminalIntegration instance after setup:
port messages (`PAYMENT_COMPLETE`, `HEARTBEAT_RESPONSE`), the firing of a
per-transaction timeout, a heartbeat interval tick, and a `destroy()` call. -/
inductive PosEvent where
  | paymentComplete (txnId : String) (d : PaymentData)
  | heartbeatResponse (now : Nat)
  | timeoutFire (txnId : String)
  | heartbeatTickAt (now : Nat)
  | destroyCall
deriving Repr, DecidableEq

/-- One step of the POSTerminalIntegration event loop. Port messages
(`paymentComplete`, `heartbeatResponse`) are delivered only while the
port is open; `HEARTBEAT_RESPONSE` sets `this.lastHeartbeat = Date.now()`
and nothing else. -/
def posStep (s : POSState) (e : PosEvent) : POSState × List PosEffect :=
  match e with
  | PosEvent.paymentComplete txnId d =>
      if s.channelOpen then
        let r := handlePaymentComplete s txnId d
        (r.1, r.2.map PosEffect.outcome)
      else (s, [])
  | PosEvent.heartbeatResponse now =>
      if s.channelOpen then ({ s with lastHeartbeat := now }, []) else (s, [])
  | PosEvent.timeoutFire txnId =>
      let r := fireTransactionTimeout s txnId
      (r.1, r.2.map PosEffect.outcome)
  | PosEvent.heartbeatTickAt now => heartbeatTick s now
  | PosEvent.destroyCall =>
      let r := POS_destroy s
      (r.1, r.2.map PosEffect.outcome)

/-- Running a sequence of events, concatenating the emitted effects. -/
def posRun (s : POSState) : List PosEvent → POSState × List PosEffect
  | [] => (s, [])
  | e :: es =>
      let r := posStep s e
      let rs := posRun r.1 es
      (rs.1, r.2 ++ rs.2)

/-- Whether an effect settles the promise of the given transaction. -/
def isOutcomeFor (txnId : String) : PosEffect → Bool
  | PosEffect.outcome (TxnOutcome.resolved t _) => t = txnId
  | PosEffect.outcome (TxnOutcome.rejectedInvalidData t) => t = txnId
  | PosEffect.outcome (TxnOutcome.rejectedTimeout t) => t = txnId
  | PosEffect.outcome (TxnOutcome.rejectedDestroyed t) => t = txnId
  | _ => false

/-- How many effects in the list settle the given transaction's promise. -/
def outcomeCount (txnId : String) (fx : List PosEffect) : Nat :=
  (fx.filter (isOutcomeFor txnId)).length

/- ===== Claim C2: outbound target origin ===== -/

/-- C2 counterexample: the claim says the target-origin argument passed to
postMessage is never the wildcard in any state, including before the
handshake. But the CommunicationManager initializes `origin` to `'*'` and
`sendMessage` posts to `this.origin`, so a send before any HANDSHAKE has
been received posts with the wildcard target. -/
theorem C2_counterexample :
    ({} : CMState).origin = "*" ∧
    (sendMessage {} { type := "EVENT" } 0 "m0").2 =
      [CMEffect.post
        { type := "EVENT", timestamp := 0, id := "m0", sequence := some 0 }
        "*"] := by
  exact ⟨rfl, rfl⟩

/-- C2 (amended): once the stored origin has been pinned away from the
wildcard (which handling any HANDSHAKE event does, setting it to that
event's exact origin), every outbound post targets exactly the stored
origin and is never the wildcard. -/
theorem C2_amended_pinned_target_exact :
    (∀ (s : CMState) (m : Msg) (now : Nat) (gid : String) (msg : Msg)
        (tgt : String), s.origin ≠ "*" →
        CMEffect.post msg tgt ∈ (sendMessage s m now gid).2 →
        tgt = s.origin ∧ tgt ≠ "*") ∧
    (∀ (s : CMState) (e : MessageEvent) (m : Msg) (now : Nat) (gid : String),
        e.data = some m → m.type = "HANDSHAKE" →
        (handleMessageEvent s e now gid).1.origin = e.origin) := by
  constructor
  · intro s m now gid msg tgt hpin hmem
    unfold sendMessage at hmem
    by_cases he : s.embedded <;> simp [he] at hmem
    exact ⟨hmem.2, hmem.2 ▸ hpin⟩
  · intro s e m now gid hdata hty
    simp only [handleMessageEvent, hdata, hty, if_pos]
    simp [handleHandshake, sendMessage]

/-- C2 witness: the amended theorem applied to a concrete pinned state. -/
theorem C2_amended_pinned_target_exact_witness :
    (({ origin := "https://app.example" } : CMState).origin ≠ "*" ∧
      CMEffect.post
        { type := "EVENT", timestamp := 7, id := "m1", sequence := some 0 }
        "https://app.example" ∈
        (sendMessage { origin := "https://app.example" } { type := "EVENT" }
          7 "m1").2) ∧
    ("https://app.example" =
        ({ origin := "https://app.example" } : CMState).origin ∧
      ("https://app.example" : String) ≠ "*") :=
  ⟨⟨by decide, by decide⟩,
   C2_amended_pinned_target_exact.1 { origin := "https://app.example" }
     { type := "EVENT" } 7 "m1"
     { type := "EVENT", timestamp := 7, id := "m1", sequence := some 0 }
     "https://app.example" (by decide) (by decide)⟩

/- ===== Claim C1: inbound origin validation ===== -/

/-- A concrete handshake event from the legitimate host origin. -/
def c1HandshakeEvent : MessageEvent :=
  { origin := "https://app.example",
    data := some { type := "HANDSHAKE", id := "h1", timestamp := 1,
                   payload := some { apiKey := some "pk_test_123",
                                     features := some [("alerts", true)] } } }

/-- The client state after that handshake has pinned
`origin = "https://app.example"` and a handler (id 1) has been registered
for type ALERT. -/
def c1PinnedState : CMState :=
  CM_on (handleMessageEvent {} c1HandshakeEvent 1 "r1").1 "ALERT" 1

/-- A message of a registered type arriving from a different origin. -/
def c1EvilEvent : MessageEvent :=
  { origin := "https://evil.example",
    data := some { type := "ALERT", id := "x1", timestamp := 2 } }

/-- C1 counterexample: after a handshake has pinned the peer origin, the
CommunicationManager's listener still delivers a message from a different
origin to the registered handler — the listener never compares
`event.origin` with the pinned origin, so the message is not dropped. -/
theorem C1_counterexample :
    c1PinnedState.origin = "https://app.example" ∧
    c1EvilEvent.origin ≠ c1PinnedState.origin ∧
    (handleMessageEvent c1PinnedState c1EvilEvent 3 "g1").2 =
      [CMEffect.invoke 1 { type := "ALERT", id := "x1", timestamp := 2 }] := by
  refine ⟨rfl, by decide, rfl⟩

/-- C1 (amended): only the host-side listener enforces the origin check —
`UnifiedPOSIntelligence.handleMessage` does nothing at all for an event
whose origin differs from the configured iframe URL, regardless of the
event's payload. The client-side CommunicationManager performs no inbound
origin check (see the counterexample). -/
theorem C1_amended_host_drops_foreign_origin (iframeUrl : String)
    (e : MessageEvent) (h : e.origin ≠ iframeUrl) :
    UPI_handleMessage iframeUrl e = [] := by
  unfold UPI_handleMessage
  simp [h]

/-- C1 witness: a well-formed ERROR message from a foreign origin produces
no host effect at all (it would log if the origin matched). -/
theorem C1_amended_host_drops_foreign_origin_witness :
    (("https://evil.example" : String) ≠ "http://localhost:3001") ∧
    UPI_handleMessage "http://localhost:3001"
      { origin := "https://evil.example",
        data := some { type := "ERROR", id := "e9", timestamp := 4,
                       payload := some { token := some "x" } } } = [] :=
  ⟨by decide,
   C1_amended_host_drops_foreign_origin "http://localhost:3001"
     { origin := "https://evil.example",
       data := some { type := "ERROR", id := "e9", timestamp := 4,
                      payload := some { token := some "x" } } }
     (by decide)⟩

/- ===== Claim C3: sequence / replay protection ===== -/

/-- A client state with a handler (id 1) registered for type EVENT. -/
def c3State : CMState := { handlers := [("EVENT", 1)] }

/-- A message carrying sequence number 5. -/
def c3Msg : Msg := { type := "EVENT", id := "e1", timestamp := 4, sequence := some 5 }

/-- The same message delivered as an event (twice, below). -/
def c3Event : MessageEvent := { origin := "http://localhost:3001", data := some c3Msg }

/-- C3 counterexample: delivering the very same message (sequence 5) twice,
the second delivery — whose sequence is ≤ the previously accepted sequence
from the same sender — is not rejected: the handler is invoked again. The
listener never reads the inbound `sequence` field. -/
theorem C3_counterexample :
    (handleMessageEvent c3State c3Event 10 "g1").2 = [CMEffect.invoke 1 c3Msg] ∧
    (handleMessageEvent (handleMessageEvent c3State c3Event 10 "g1").1 c3Event
        11 "g2").2 = [CMEffect.invoke 1 c3Msg] := by
  exact ⟨rfl, rfl⟩

/-- Replace the `sequence` field of an event's message, if any. -/
def withSeq (e : MessageEvent) (q : Option Nat) : MessageEvent :=
  match e.data with
  | none => e
  | some m => { e with data := some { m with sequence := q } }

/-- C3 (amended): no inbound sequence check exists — the listener's
resulting state and whether it delivers anything are independent of the
inbound message's `sequence` field; only the outbound counter is
sequence-related: `sendMessage` stamps the current counter on the outgoing
message and increments it, so outbound sequences strictly increase. -/
theorem C3_amended_sequence_only_outbound :
    (∀ (s : CMState) (e : MessageEvent) (now : Nat) (gid : String)
        (a b : Option Nat),
        (handleMessageEvent s (withSeq e a) now gid).1 =
          (handleMessageEvent s (withSeq e b) now gid).1 ∧
        ((handleMessageEvent s (withSeq e a) now gid).2 = [] ↔
          (handleMessageEvent s (withSeq e b) now gid).2 = [])) ∧
    (∀ (s : CMState) (m : Msg) (now : Nat) (gid : String),
        (sendMessage s m now gid).1.sequence = s.sequence + 1 ∧
        ∀ (msg : Msg) (tgt : String),
          CMEffect.post msg tgt ∈ (sendMessage s m now gid).2 →
          msg.sequence = some s.sequence) := by
  constructor
  · intro s e now gid a b
    match he : e.data with
    | none => simp [withSeq, he]
    | some m =>
      simp only [withSeq, he]
      by_cases h1 : m.type = "HANDSHAKE"
      · simp [handleMessageEvent, h1, handleHandshake, sendMessage]
      · by_cases h2 : m.type = "CONFIG"
        · simp [handleMessageEvent, h1, h2]
        · by_cases h3 : m.type = "AUTH"
          · simp [handleMessageEvent, h1, h2, h3]
          · simp only [handleMessageEvent, h1, h2, h3, if_neg, if_false]
            match hl : s.handlers.lookup m.type with
            | some h => simp [hl]
            | none => simp [hl]
  · intro s m now gid
    refine ⟨rfl, ?_⟩
    intro msg tgt hmem
    unfold sendMessage at hmem
    by_cases he : s.embedded <;> simp [he] at hmem
    rw [hmem.1]

/-- C3 witness: the amended theorem at concrete inputs — the send in the
initial state stamps sequence 0 on the posted message. -/
theorem C3_amended_sequence_only_outbound_witness :
    CMEffect.post
        { type := "EVENT", timestamp := 0, id := "m0", sequence := some 0 } "*" ∈
      (sendMessage {} { type := "EVENT" } 0 "m0").2 ∧
    ({ type := "EVENT", timestamp := 0, id := "m0",
       sequence := some 0 } : Msg).sequence = some ({} : CMState).sequence :=
  ⟨by decide,
   (C3_amended_sequence_only_outbound.2 {} { type := "EVENT" } 0 "m0").2
     { type := "EVENT", timestamp := 0, id := "m0", sequence := some 0 } "*"
     (by decide)⟩

/- ===== Claim C9: dispatcher handler registry ===== -/

/-- A message of a registered application type, used to probe routing. -/
def c9Msg : Msg := { type := "ALERT", id := "a1", timestamp := 1 }

/-- The probe message delivered as an event. -/
def c9Event : MessageEvent := { origin := "http://localhost:3001", data := some c9Msg }

/-- The client state after `on('ALERT', handler1)` then `on('ALERT', handler2)`. -/
def c9State : CMState := CM_on (CM_on {} "ALERT" 1) "ALERT" 2

/-- C9 counterexample: after registering two distinct handlers for the same
type, routing a message of that type invokes only the second handler — the
registry is `Map<string, handler>`, so the second `on` replaced the first
and the first handler is never invoked. -/
theorem C9_counterexample :
    (handleMessageEvent c9State c9Event 2 "g").2 = [CMEffect.invoke 2 c9Msg] ∧
    CMEffect.invoke 1 c9Msg ∉ (handleMessageEvent c9State c9Event 2 "g").2 := by
  exact ⟨rfl, by decide⟩

/-- Looking up the key just set finds the new value. -/
theorem lookup_mapSet_self (l : List (String × Nat)) (t : String) (h : Nat) :
    (mapSet l t h).lookup t = some h := by
  induction l with
  | nil => simp [mapSet, List.lookup]
  | cons kv rest ih =>
    obtain ⟨k, v⟩ := kv
    by_cases hk : k = t
    · simp [mapSet, hk, List.lookup]
    · simp [mapSet, hk, List.lookup, ih,
        beq_eq_false_iff_ne.mpr (Ne.symm hk)]

/-- Setting one key leaves lookups of other keys unchanged. -/
theorem lookup_mapSet_ne (l : List (String × Nat)) (t t2 : String) (h : Nat)
    (hne : t2 ≠ t) : (mapSet l t h).lookup t2 = l.lookup t2 := by
  induction l with
  | nil => simp [mapSet, List.lookup, beq_eq_false_iff_ne.mpr hne]
  | cons kv rest ih =>
    obtain ⟨k, v⟩ := kv
    by_cases hk : k = t
    · subst hk
      simp [mapSet, List.lookup, beq_eq_false_iff_ne.mpr hne]
    · by_cases hk2 : t2 = k
      · subst hk2
        simp [mapSet, hk, List.lookup]
      · simp [mapSet, hk, List.lookup, ih,
          beq_eq_false_iff_ne.mpr hk2]

/-- Deleting one key leaves lookups of other keys unchanged. -/
theorem lookup_mapDelete_ne (l : List (String × Nat)) (t t2 : String)
    (hne : t2 ≠ t) : (mapDelete l t).lookup t2 = l.lookup t2 := by
  induction l with
  | nil => simp [mapDelete]
  | cons kv rest ih =>
    obtain ⟨k, v⟩ := kv
    by_cases hk : k = t
    · subst hk
      simp [mapDelete, List.lookup, beq_eq_false_iff_ne.mpr hne]
    · by_cases hk2 : t2 = k
      · subst hk2
        simp [mapDelete, hk, List.lookup]
      · simp [mapDelete, hk, List.lookup, ih,
          beq_eq_false_iff_ne.mpr hk2]

/-- With no duplicate keys, deleting a key makes its lookup fail. -/
theorem lookup_mapDelete_self (l : List (String × Nat)) (t : String)
    (hnd : (l.map Prod.fst).Nodup) : (mapDelete l t).lookup t = none := by
  induction l with
  | nil => simp [mapDelete]
  | cons kv rest ih =>
    obtain ⟨k, v⟩ := kv
    simp only [List.map_cons, List.nodup_cons] at hnd
    by_cases hk : k = t
    · subst hk
      simp only [mapDelete, if_pos rfl]
      rw [List.lookup_eq_none_iff]
      intro p hmem
      have hkp : p.1 ≠ k := by
        intro hEq
        exact hnd.1 (List.mem_map.mpr ⟨p, hmem, hEq⟩)
      simpa using (Ne.symm hkp)
    · simp [mapDelete, hk, List.lookup, ih hnd.2,
        beq_eq_false_iff_ne.mpr (Ne.symm hk)]

/-- `mapSet` preserves the key list up to replacing a value, so key
nodup-ness is preserved. -/
theorem mapSet_keys (l : List (String × Nat)) (t : String) (h : Nat) :
    ((mapSet l t h).map Prod.fst) = if t ∈ l.map Prod.fst then l.map Prod.fst
      else l.map Prod.fst ++ [t] := by
  induction l with
  | nil => simp [mapSet]
  | cons kv rest ih =>
    obtain ⟨k, v⟩ := kv
    by_cases hk : k = t
    · simp [mapSet, hk]
    · simp only [mapSet, if_neg hk, List.map_cons, ih]
      by_cases hmem : t ∈ rest.map Prod.fst
      · simp [hmem, Ne.symm hk]
      · simp [hmem, Ne.symm hk]

/-- C9 (amended): the registry keeps at most one handler per type —
`on(type, handler)` replaces any handler previously registered for that
type (so routing a message of that type invokes exactly the handler
registered last), `on` leaves other types untouched, and `off(type)` —
which takes no handler argument — removes that type's sole handler while
leaving other types registered. -/
theorem C9_amended_single_handler_registry (s : CMState) (t t2 : String)
    (h1 h2 : Nat) (e : MessageEvent) (m : Msg) (now : Nat) (gid : String)
    (hdata : e.data = some m) (hty : m.type = t)
    (hp1 : t ≠ "HANDSHAKE") (hp2 : t ≠ "CONFIG") (hp3 : t ≠ "AUTH")
    (hne : t2 ≠ t)
    (hnd : (s.handlers.map Prod.fst).Nodup) :
    (handleMessageEvent (CM_on (CM_on s t h1) t h2) e now gid).2 =
      [CMEffect.invoke h2 m] ∧
    (CM_on (CM_on s t h1) t h2).handlers.lookup t2 = s.handlers.lookup t2 ∧
    (CM_off (CM_on s t h1) t).handlers.lookup t = none ∧
    (CM_off (CM_on s t h1) t).handlers.lookup t2 = s.handlers.lookup t2 := by
  refine ⟨?_, ?_, ?_, ?_⟩
  · simp only [handleMessageEvent, hdata, hty, if_neg hp1, if_neg hp2,
      if_neg hp3, CM_on]
    rw [lookup_mapSet_self]
  · simp only [CM_on]
    rw [lookup_mapSet_ne _ _ _ _ hne, lookup_mapSet_ne _ _ _ _ hne]
  · simp only [CM_off, CM_on]
    apply lookup_mapDelete_self
    rw [mapSet_keys]
    by_cases hmem : t ∈ s.handlers.map Prod.fst
    · simp [hmem, hnd]
    · simp only [hmem, if_false]
      exact List.Nodup.append hnd (List.nodup_singleton t)
        (by simpa using hmem)
  · simp only [CM_off, CM_on]
    rw [lookup_mapDelete_ne _ _ _ hne, lookup_mapSet_ne _ _ _ _ hne]

/-- C9 witness: the amended theorem at a concrete registry — handler 2
replaced handler 1 for ALERT, STATUS's handler 7 survives both the second
`on` and the `off`. -/
theorem C9_amended_single_handler_registry_witness :
    (handleMessageEvent
        (CM_on (CM_on { handlers := [("STATUS", 7)] } "ALERT" 1) "ALERT" 2)
        c9Event 2 "g").2 = [CMEffect.invoke 2 c9Msg] ∧
    (CM_on (CM_on ({ handlers := [("STATUS", 7)] } : CMState) "ALERT" 1)
        "ALERT" 2).handlers.lookup "STATUS" =
      ({ handlers := [("STATUS", 7)] } : CMState).handlers.lookup "STATUS" ∧
    (CM_off (CM_on ({ handlers := [("STATUS", 7)] } : CMState) "ALERT" 1)
        "ALERT").handlers.lookup "ALERT" = none ∧
    (CM_off (CM_on ({ handlers := [("STATUS", 7)] } : CMState) "ALERT" 1)
        "ALERT").handlers.lookup "STATUS" =
      ({ handlers := [("STATUS", 7)] } : CMState).handlers.lookup "STATUS" :=
  C9_amended_single_handler_registry { handlers := [("STATUS", 7)] }
    "ALERT" "STATUS" 1 2 c9Event c9Msg 2 "g" (by decide) (by decide)
    (by decide) (by decide) (by decide) (by decide) (by decide)

/- ===== Claim C10: HANDSHAKE handling always re-pins ===== -/

/-- C10 (confirmed): for every received HANDSHAKE — in any state, at any
time, from any origin — the CommunicationManager overwrites its stored
origin with the event's origin, stores the payload's apiKey and features,
and sends a READY message back (targeted at the new origin, when running
embedded); every subsequent outbound post then targets that new origin. -/
theorem C10_handshake_always_repins (s : CMState) (e : MessageEvent) (m : Msg)
    (now : Nat) (gid : String) (hdata : e.data = some m)
    (hty : m.type = "HANDSHAKE") :
    ((handleMessageEvent s e now gid).1.origin = e.origin ∧
      (handleMessageEvent s e now gid).1.apiKey = m.payload.bind Payload.apiKey ∧
      (handleMessageEvent s e now gid).1.features =
        m.payload.bind Payload.features) ∧
    (s.embedded = true →
      ∃ rm : Msg, (handleMessageEvent s e now gid).2 =
          [CMEffect.post rm e.origin] ∧ rm.type = "READY") ∧
    (∀ (m2 : Msg) (now2 : Nat) (gid2 : String) (msg : Msg) (tgt : String),
      CMEffect.post msg tgt ∈
        (sendMessage (handleMessageEvent s e now gid).1 m2 now2 gid2).2 →
      tgt = e.origin) := by
  simp only [handleMessageEvent, hdata, hty, if_pos]
  refine ⟨by simp [handleHandshake, sendMessage], ?_, ?_⟩
  · intro hemb
    refine ⟨{ type := "READY",
              payload := some { version := some "1.0.0",
                                features := m.payload.bind Payload.features },
              timestamp := now, id := gid, sequence := some s.sequence },
            ?_, rfl⟩
    simp [handleHandshake, sendMessage, hemb]
  · intro m2 now2 gid2 msg tgt hmem
    simp only [handleHandshake, sendMessage] at hmem ⊢
    by_cases he : s.embedded <;> simp [he] at hmem
    exact hmem.2

/-- C10 witness: a second HANDSHAKE from a different origin re-pins the
already-pinned state (and the READY reply goes to the new origin). -/
theorem C10_handshake_always_repins_witness :
    (c1HandshakeEvent.data =
        some { type := "HANDSHAKE", id := "h1", timestamp := 1,
               payload := some { apiKey := some "pk_test_123",
                                 features := some [("alerts", true)] } }) ∧
    ((handleMessageEvent c1PinnedState c1HandshakeEvent 9 "r2").1.origin =
        c1HandshakeEvent.origin ∧
      (handleMessageEvent c1PinnedState c1HandshakeEvent 9 "r2").1.apiKey =
        (some { apiKey := some "pk_test_123",
                features := some [("alerts", true)] } : Option Payload).bind
          Payload.apiKey ∧
      (handleMessageEvent c1PinnedState c1HandshakeEvent 9 "r2").1.features =
        (some { apiKey := some "pk_test_123",
                features := some [("alerts", true)] } : Option Payload).bind
          Payload.features) ∧
    (c1PinnedState.embedded = true →
      ∃ rm : Msg, (handleMessageEvent c1PinnedState c1HandshakeEvent 9 "r2").2 =
          [CMEffect.post rm c1HandshakeEvent.origin] ∧ rm.type = "READY") ∧
    (∀ (m2 : Msg) (now2 : Nat) (gid2 : String) (msg : Msg) (tgt : String),
      CMEffect.post msg tgt ∈
        (sendMessage (handleMessageEvent c1PinnedState c1HandshakeEvent 9
          "r2").1 m2 now2 gid2).2 →
      tgt = c1HandshakeEvent.origin) :=
  ⟨rfl,
   C10_handshake_always_repins c1PinnedState c1HandshakeEvent
     { type := "HANDSHAKE", id := "h1", timestamp := 1,
       payload := some { apiKey := some "pk_test_123",
                         features := some [("alerts", true)] } }
     9 "r2" rfl rfl⟩

/- ===== Claim C5: handshake payload contents ===== -/

/-- C5 counterexample: the SDK's handshake message carries exactly the
fields type, apiKey, features, timestamp — no nonce and no
protocol/capability version — so the claim that every handshake message
carries at minimum a credential, a version, and a nonce fails on it. -/
theorem C5_counterexample :
    (sendHandshakeMessage "pk_test_123" [("alerts", true)] 0).map Prod.fst =
      ["type", "apiKey", "features", "timestamp"] ∧
    "nonce" ∉
      (sendHandshakeMessage "pk_test_123" [("alerts", true)] 0).map Prod.fst ∧
    "version" ∉
      (sendHandshakeMessage "pk_test_123" [("alerts", true)] 0).map Prod.fst := by
  refine ⟨rfl, by decide, by decide⟩

/-- C5 (amended): the SDK handshake (HANDSHAKE) carries a credential
(apiKey), features and a timestamp but neither a version nor a nonce; the
POS terminal channel-establishment message (ESTABLISH_CHANNEL) carries a
credential, a timestamp and a nonce but no version; and the SDK host
accepts a READY response without examining any nonce — `handleMessage` on
a READY from the expected origin does nothing regardless of its payload. -/
theorem C5_amended_handshake_fields (apiKey : String)
    (fs : List (String × Bool)) (now : Nat) (nonce : String)
    (url : String) (sub act sig : Option String) (p : Option Payload)
    (ts : Nat) (idv : String) (sq : Option Nat) :
    ((sendHandshakeMessage apiKey fs now).map Prod.fst =
        ["type", "apiKey", "features", "timestamp"] ∧
      "nonce" ∉ (sendHandshakeMessage apiKey fs now).map Prod.fst ∧
      "version" ∉ (sendHandshakeMessage apiKey fs now).map Prod.fst) ∧
    ((establishChannelMessage apiKey now nonce).map Prod.fst =
        ["type", "apiKey", "timestamp", "nonce"] ∧
      "version" ∉ (establishChannelMessage apiKey now nonce).map Prod.fst) ∧
    UPI_handleMessage url
      { origin := url,
        data := some ⟨"READY", sub, act, p, ts, idv, sq, sig⟩ } = [] := by
  refine ⟨⟨rfl, by simp [sendHandshakeMessage], by simp [sendHandshakeMessage]⟩,
    ⟨rfl, by simp [establishChannelMessage]⟩, ?_⟩
  simp [UPI_handleMessage]

/- ===== Claim C6: idempotent resolution ===== -/

/-- C6 (confirmed): delivering the same valid PAYMENT_COMPLETE twice
resolves the pending transaction exactly once; the second delivery finds
no queue entry (`if (!transaction) return`) and is a no-op — it changes no
state and settles nothing. -/
theorem C6_duplicate_response_idempotent (s : POSState) (txnId : String)
    (d : PaymentData) (hpend : txnId ∈ s.transactionQueue)
    (hval : validatePaymentData d = true) :
    (handlePaymentComplete s txnId d).2 = [TxnOutcome.resolved txnId d] ∧
    handlePaymentComplete (handlePaymentComplete s txnId d).1 txnId d =
      ((handlePaymentComplete s txnId d).1, []) := by
  have hnot : txnId ∉ (handlePaymentComplete s txnId d).1.transactionQueue := by
    simp [handlePaymentComplete, hpend, hval]
  constructor
  · simp [handlePaymentComplete, hpend, hval]
  · rw [handlePaymentComplete, if_neg hnot]

/-- The concrete state for the C6 witness: two pending requests. -/
def c6State : POSState :=
  { transactionQueue := ["t1", "t2"], activeTimeouts := ["t1", "t2"],
    connectionState := "connected", channelOpen := true }

/-- A valid PAYMENT_COMPLETE payload for the C6 witness. -/
def c6Data : PaymentData :=
  { authorizationCode := some "AUTH1", amount := some 5000,
    timestamp := some 1700 }

/-- C6 witness: a concrete duplicate delivery with two pending requests. -/
theorem C6_duplicate_response_idempotent_witness :
    ("t1" ∈ c6State.transactionQueue ∧ validatePaymentData c6Data = true) ∧
    ((handlePaymentComplete c6State "t1" c6Data).2 =
        [TxnOutcome.resolved "t1" c6Data] ∧
      handlePaymentComplete (handlePaymentComplete c6State "t1" c6Data).1
          "t1" c6Data =
        ((handlePaymentComplete c6State "t1" c6Data).1, [])) :=
  ⟨⟨by decide, by decide⟩,
   C6_duplicate_response_idempotent c6State "t1" c6Data (by decide) (by decide)⟩

/- ===== Claim C4: settlement outcomes of a request ===== -/

/-- A connected state with one pending transaction, its timeout armed. -/
def c4State : POSState :=
  { connectionState := "connected", transactionQueue := ["t1"],
    activeTimeouts := ["t1"], heartbeatActive := true, channelOpen := true }

/-- A matching PAYMENT_COMPLETE payload that fails `validatePaymentData`
(no authorization code). -/
def c4BadData : PaymentData := { amount := some 5000, timestamp := some 99 }

/-- C4 counterexample: a PAYMENT_COMPLETE whose id matches the pending
request but whose data fails validation settles the request by rejection
with 'Invalid payment data received' — an outcome that is neither
resolution with the response payload, nor a Timeout rejection, nor a
ChannelClosed rejection, so the claimed three-way disjunction fails. -/
theorem C4_counterexample :
    posStep c4State (PosEvent.paymentComplete "t1" c4BadData) =
      ({ c4State with transactionQueue := [], activeTimeouts := [] },
       [PosEffect.outcome (TxnOutcome.rejectedInvalidData "t1")]) := by
  rfl

/-- Counting settlements distributes over concatenation of effect lists. -/
theorem outcomeCount_append (tid : String) (a b : List PosEffect) :
    outcomeCount tid (a ++ b) = outcomeCount tid a + outcomeCount tid b := by
  simp [outcomeCount, List.filter_append]

/-- The teardown rejections settle `tid` as many times as `tid` occurs in
the queue. -/
theorem outcomeCount_destroyed_map (tid : String) (l : List String) :
    outcomeCount tid
        (l.map fun t => PosEffect.outcome (TxnOutcome.rejectedDestroyed t)) =
      l.count tid := by
  induction l with
  | nil => rfl
  | cons a l ih =>
    by_cases h : a = tid <;>
      simp [outcomeCount, isOutcomeFor, h, List.count_cons, ih.symm.trans rfl]

/-- A heartbeat tick never settles any request and never touches the
queue or the per-request timers. -/
theorem heartbeatTick_no_settlement (tid : String) (s : POSState) (now : Nat) :
    outcomeCount tid (heartbeatTick s now).2 = 0 ∧
    (heartbeatTick s now).1.transactionQueue = s.transactionQueue ∧
    (heartbeatTick s now).1.activeTimeouts = s.activeTimeouts := by
  unfold heartbeatTick
  split
  · exact ⟨rfl, rfl, rfl⟩
  · split
    · exact ⟨rfl, rfl, rfl⟩
    · split
      · exact ⟨rfl, rfl, rfl⟩
      · exact ⟨rfl, rfl, rfl⟩

/-- One step from a state where `tid` is pending with its timeout armed
(and the queue has no duplicate ids): either nothing settles `tid` and it
stays pending-and-armed, or exactly one effect settles it and it is gone
from both the queue and the timer set. -/
theorem posStep_armed_dichotomy (s : POSState) (tid : String) (e : PosEvent)
    (hq : tid ∈ s.transactionQueue) (ht : tid ∈ s.activeTimeouts)
    (hnd : s.transactionQueue.Nodup) :
    (tid ∈ (posStep s e).1.transactionQueue ∧
       tid ∈ (posStep s e).1.activeTimeouts ∧
       (posStep s e).1.transactionQueue.Nodup ∧
       outcomeCount tid (posStep s e).2 = 0) ∨
    (tid ∉ (posStep s e).1.transactionQueue ∧
       tid ∉ (posStep s e).1.activeTimeouts ∧
       (posStep s e).1.transactionQueue.Nodup ∧
       outcomeCount tid (posStep s e).2 = 1) := by
  cases e with
  | paymentComplete tid' d =>
    by_cases hco : s.channelOpen
    · by_cases hmem : tid' ∈ s.transactionQueue
      · by_cases heq : tid' = tid
        · subst heq
          right
          by_cases hval : validatePaymentData d <;>
            simp [posStep, hco, handlePaymentComplete, hmem, hval,
              outcomeCount, isOutcomeFor, List.Nodup.filter _ hnd]
        · left
          by_cases hval : validatePaymentData d <;>
            simp [posStep, hco, handlePaymentComplete, hmem, hval,
              outcomeCount, isOutcomeFor, List.Nodup.filter _ hnd,
              hq, ht, Ne.symm heq, heq]
      · left
        simp [posStep, hco, handlePaymentComplete, hmem, hq, ht, hnd,
          outcomeCount]
    · left
      simp [posStep, hco, hq, ht, hnd, outcomeCount]
  | heartbeatResponse now =>
    by_cases hco : s.channelOpen <;>
      left <;> simp [posStep, hco, hq, ht, hnd, outcomeCount]
  | timeoutFire tid' =>
    by_cases heq : tid' = tid
    · subst heq
      right
      simp [posStep, fireTransactionTimeout, ht, outcomeCount, isOutcomeFor,
        List.Nodup.filter _ hnd]
    · left
      by_cases hmem : tid' ∈ s.activeTimeouts <;>
        simp [posStep, fireTransactionTimeout, hmem, hq, ht, hnd,
          outcomeCount, isOutcomeFor, Ne.symm heq, heq,
          List.Nodup.filter _ hnd]
  | heartbeatTickAt now =>
    left
    have h := heartbeatTick_no_settlement tid s now
    refine ⟨?_, ?_, ?_, ?_⟩
    · rw [show (posStep s (PosEvent.heartbeatTickAt now)).1 =
        (heartbeatTick s now).1 from rfl, h.2.1]
      exact hq
    · rw [show (posStep s (PosEvent.heartbeatTickAt now)).1 =
        (heartbeatTick s now).1 from rfl, h.2.2]
      exact ht
    · rw [show (posStep s (PosEvent.heartbeatTickAt now)).1 =
        (heartbeatTick s now).1 from rfl, h.2.1]
      exact hnd
    · exact h.1
  | destroyCall =>
    right
    refine ⟨?_, ?_, ?_, ?_⟩
    · simp [posStep, POS_destroy]
    · simp [posStep, POS_destroy, hq]
    · simp [posStep, POS_destroy]
    · have hstep : (posStep s PosEvent.destroyCall).2 =
          s.transactionQueue.map
            (fun t => PosEffect.outcome (TxnOutcome.rejectedDestroyed t)) := by
        simp [posStep, POS_destroy, List.map_map, Function.comp]
      rw [hstep, outcomeCount_destroyed_map]
      exact List.count_eq_one_of_mem hnd hq

/-- A settled request stays settled: once `tid` is out of the queue and
its timer is gone, no step settles it again or re-adds it. -/
theorem posStep_settled (s : POSState) (tid : String) (e : PosEvent)
    (hq : tid ∉ s.transactionQueue) (ht : tid ∉ s.activeTimeouts) :
    tid ∉ (posStep s e).1.transactionQueue ∧
    tid ∉ (posStep s e).1.activeTimeouts ∧
    outcomeCount tid (posStep s e).2 = 0 := by
  cases e with
  | paymentComplete tid' d =>
    by_cases hco : s.channelOpen
    · by_cases hmem : tid' ∈ s.transactionQueue
      · have hne : tid' ≠ tid := fun h => hq (h ▸ hmem)
        by_cases hval : validatePaymentData d <;>
          simp [posStep, hco, handlePaymentComplete, hmem, hval,
            outcomeCount, isOutcomeFor, hq, ht, hne]
      · simp [posStep, hco, handlePaymentComplete, hmem, hq, ht, outcomeCount]
    · simp [posStep, hco, hq, ht, outcomeCount]
  | heartbeatResponse now =>
    by_cases hco : s.channelOpen <;>
      simp [posStep, hco, hq, ht, outcomeCount]
  | timeoutFire tid' =>
    by_cases hmem : tid' ∈ s.activeTimeouts
    · have hne : tid' ≠ tid := fun h => ht (h ▸ hmem)
      simp [posStep, fireTransactionTimeout, hmem, outcomeCount,
        isOutcomeFor, hq, ht, hne]
    · simp [posStep, fireTransactionTimeout, hmem, hq, ht, outcomeCount]
  | heartbeatTickAt now =>
    have h := heartbeatTick_no_settlement tid s now
    refine ⟨?_, ?_, h.1⟩
    · rw [show (posStep s (PosEvent.heartbeatTickAt now)).1 =
        (heartbeatTick s now).1 from rfl, h.2.1]
      exact hq
    · rw [show (posStep s (PosEvent.heartbeatTickAt now)).1 =
        (heartbeatTick s now).1 from rfl, h.2.2]
      exact ht
  | destroyCall =>
    refine ⟨?_, ?_, ?_⟩
    · simp [posStep, POS_destroy]
    · simp only [posStep, POS_destroy]
      intro hmem
      exact ht (List.mem_of_mem_filter hmem)
    · have hstep : (posStep s PosEvent.destroyCall).2 =
          s.transactionQueue.map
            (fun t => PosEffect.outcome (TxnOutcome.rejectedDestroyed t)) := by
        simp [posStep, POS_destroy, List.map_map, Function.comp]
      rw [hstep, outcomeCount_destroyed_map]
      exact List.count_eq_zero.mpr hq

/-- A settled request stays settled along any trace, with no settlement
effect emitted. -/
theorem posRun_settled (tid : String) :
    ∀ (tr : List PosEvent) (s : POSState),
      tid ∉ s.transactionQueue → tid ∉ s.activeTimeouts →
      tid ∉ (posRun s tr).1.transactionQueue ∧
      tid ∉ (posRun s tr).1.activeTimeouts ∧
      outcomeCount tid (posRun s tr).2 = 0 := by
  intro tr
  induction tr with
  | nil => intro s hq ht; exact ⟨hq, ht, rfl⟩
  | cons e es ih =>
    intro s hq ht
    have hstep := posStep_settled s tid e hq ht
    have hrest := ih (posStep s e).1 hstep.1 hstep.2.1
    refine ⟨hrest.1, hrest.2.1, ?_⟩
    show outcomeCount tid ((posStep s e).2 ++ (posRun (posStep s e).1 es).2) = 0
    rw [outcomeCount_append, hstep.2.2, hrest.2.2]

/-- Along any trace from a pending-and-armed request, either no effect
settles it and it is still pending with its timer armed at the end, or
exactly one effect settles it. -/
theorem posRun_armed_dichotomy (tid : String) :
    ∀ (tr : List PosEvent) (s : POSState),
      tid ∈ s.transactionQueue → tid ∈ s.activeTimeouts →
      s.transactionQueue.Nodup →
      (tid ∈ (posRun s tr).1.transactionQueue ∧
         tid ∈ (posRun s tr).1.activeTimeouts ∧
         (posRun s tr).1.transactionQueue.Nodup ∧
         outcomeCount tid (posRun s tr).2 = 0) ∨
      outcomeCount tid (posRun s tr).2 = 1 := by
  intro tr
  induction tr with
  | nil => intro s hq ht hnd; exact Or.inl ⟨hq, ht, hnd, rfl⟩
  | cons e es ih =>
    intro s hq ht hnd
    have hcat : outcomeCount tid (posRun s (e :: es)).2 =
        outcomeCount tid (posStep s e).2 +
          outcomeCount tid (posRun (posStep s e).1 es).2 := by
      show outcomeCount tid ((posStep s e).2 ++ (posRun (posStep s e).1 es).2) =
        _
      rw [outcomeCount_append]
    rcases posStep_armed_dichotomy s tid e hq ht hnd with hl | hr
    · rcases ih (posStep s e).1 hl.1 hl.2.1 hl.2.2.1 with hl2 | hr2
      · exact Or.inl ⟨hl2.1, hl2.2.1, hl2.2.2.1, by
          rw [hcat, hl.2.2.2, hl2.2.2.2]⟩
      · exact Or.inr (by rw [hcat, hl.2.2.2, hr2])
    · have hrest := posRun_settled tid es (posStep s e).1 hr.1 hr.2.1
      exact Or.inr (by rw [hcat, hr.2.2.2, hrest.2.2])

/-- A destroy call or the request's own timeout firing, from a
pending-and-armed state, settles the request in that very step. -/
theorem posStep_decider_settles (s : POSState) (tid : String) (e : PosEvent)
    (hq : tid ∈ s.transactionQueue) (ht : tid ∈ s.activeTimeouts)
    (hnd : s.transactionQueue.Nodup)
    (hdec : e = PosEvent.destroyCall ∨ e = PosEvent.timeoutFire tid) :
    tid ∉ (posStep s e).1.transactionQueue ∧
    tid ∉ (posStep s e).1.activeTimeouts ∧
    outcomeCount tid (posStep s e).2 = 1 := by
  rcases hdec with rfl | rfl
  · refine ⟨?_, ?_, ?_⟩
    · simp [posStep, POS_destroy]
    · simp [posStep, POS_destroy, hq]
    · have hstep : (posStep s PosEvent.destroyCall).2 =
          s.transactionQueue.map
            (fun t => PosEffect.outcome (TxnOutcome.rejectedDestroyed t)) := by
        simp [posStep, POS_destroy, List.map_map, Function.comp]
      rw [hstep, outcomeCount_destroyed_map]
      exact List.count_eq_one_of_mem hnd hq
  · simp [posStep, fireTransactionTimeout, ht, outcomeCount, isOutcomeFor]

/-- Any trace containing a destroy call or the request's own timeout
firing settles a pending-and-armed request exactly once. -/
theorem posRun_decider_settles_once (tid : String) :
    ∀ (tr : List PosEvent) (s : POSState),
      tid ∈ s.transactionQueue → tid ∈ s.activeTimeouts →
      s.transactionQueue.Nodup →
      (PosEvent.destroyCall ∈ tr ∨ PosEvent.timeoutFire tid ∈ tr) →
      outcomeCount tid (posRun s tr).2 = 1 := by
  intro tr
  induction tr with
  | nil => intro s _ _ _ hdec; rcases hdec with h | h <;> cases h
  | cons e es ih =>
    intro s hq ht hnd hdec
    have hcat : outcomeCount tid (posRun s (e :: es)).2 =
        outcomeCount tid (posStep s e).2 +
          outcomeCount tid (posRun (posStep s e).1 es).2 := by
      show outcomeCount tid ((posStep s e).2 ++ (posRun (posStep s e).1 es).2) =
        _
      rw [outcomeCount_append]
    by_cases hde : e = PosEvent.destroyCall ∨ e = PosEvent.timeoutFire tid
    · have hsettle := posStep_decider_settles s tid e hq ht hnd hde
      have hrest := posRun_settled tid es (posStep s e).1 hsettle.1 hsettle.2.1
      rw [hcat, hsettle.2.2, hrest.2.2]
    · have hdec2 : PosEvent.destroyCall ∈ es ∨ PosEvent.timeoutFire tid ∈ es := by
        rcases hdec with h | h
        · rcases List.mem_cons.mp h with h1 | h1
          · exact absurd (Or.inl h1.symm) hde
          · exact Or.inl h1
        · rcases List.mem_cons.mp h with h1 | h1
          · exact absurd (Or.inr h1.symm) hde
          · exact Or.inr h1
      rcases posStep_armed_dichotomy s tid e hq ht hnd with hl | hr
      · rw [hcat, hl.2.2.2, ih (posStep s e).1 hl.1 hl.2.1 hl.2.2.1 hdec2]
      · have hrest := posRun_settled tid es (posStep s e).1 hr.1 hr.2.1
        rw [hcat, hr.2.2.2, hrest.2.2]

/-- C4 (amended): for a pending request with its timeout armed (and no
duplicate ids in the queue), any sequence of events settles its promise at
most once; if nothing has settled it, it is still pending with its timeout
armed (so a settlement is still scheduled); and a trace containing
`destroy()` or the request's own timeout firing settles it exactly once.
The settlement is one of FOUR outcomes — resolved (matching
PAYMENT_COMPLETE with valid data), rejected 'Invalid payment data
received' (matching PAYMENT_COMPLETE with invalid data, see the
counterexample), rejected 'Transaction timeout', or rejected 'Terminal
destroyed' — not the three the claim lists. -/
theorem C4_amended_settlement (s : POSState) (tid : String)
    (tr : List PosEvent) (hq : tid ∈ s.transactionQueue)
    (ht : tid ∈ s.activeTimeouts) (hnd : s.transactionQueue.Nodup) :
    outcomeCount tid (posRun s tr).2 ≤ 1 ∧
    (outcomeCount tid (posRun s tr).2 = 0 →
      tid ∈ (posRun s tr).1.transactionQueue ∧
      tid ∈ (posRun s tr).1.activeTimeouts) ∧
    ((PosEvent.destroyCall ∈ tr ∨ PosEvent.timeoutFire tid ∈ tr) →
      outcomeCount tid (posRun s tr).2 = 1) := by
  refine ⟨?_, ?_, ?_⟩
  · rcases posRun_armed_dichotomy tid tr s hq ht hnd with hl | hr
    · rw [hl.2.2.2]; exact Nat.zero_le 1
    · rw [hr]
  · intro h0
    rcases posRun_armed_dichotomy tid tr s hq ht hnd with hl | hr
    · exact ⟨hl.1, hl.2.1⟩
    · rw [h0] at hr; cases hr
  · exact posRun_decider_settles_once tid tr s hq ht hnd

/-- The trace used by the C4 witness: a valid matching response arrives,
then the request's timeout fires (too late), then a destroy — the request
must be settled exactly once in total. -/
def c4WitnessTrace : List PosEvent :=
  [PosEvent.paymentComplete "t1" c6Data, PosEvent.timeoutFire "t1",
   PosEvent.destroyCall]

/-- C4 witness: the amended theorem on the concrete one-request state and
the concrete trace above. -/
theorem C4_amended_settlement_witness :
    ("t1" ∈ c4State.transactionQueue ∧ "t1" ∈ c4State.activeTimeouts ∧
      c4State.transactionQueue.Nodup) ∧
    (outcomeCount "t1" (posRun c4State c4WitnessTrace).2 ≤ 1 ∧
      (outcomeCount "t1" (posRun c4State c4WitnessTrace).2 = 0 →
        "t1" ∈ (posRun c4State c4WitnessTrace).1.transactionQueue ∧
        "t1" ∈ (posRun c4State c4WitnessTrace).1.activeTimeouts) ∧
      ((PosEvent.destroyCall ∈ c4WitnessTrace ∨
          PosEvent.timeoutFire "t1" ∈ c4WitnessTrace) →
        outcomeCount "t1" (posRun c4State c4WitnessTrace).2 = 1)) :=
  ⟨⟨by decide, by decide, by decide⟩,
   C4_amended_settlement c4State "t1" c4WitnessTrace (by decide) (by decide)
     (by decide)⟩

/- ===== Claim C7: destroy() teardown ===== -/

/-- A torn-down state: no pending requests, no armed per-request timers,
heartbeat interval cleared, port closed. -/
def quiescent (s : POSState) : Prop :=
  s.transactionQueue = [] ∧ s.activeTimeouts = [] ∧
  s.heartbeatActive = false ∧ s.channelOpen = false

/-- No event has any effect on a torn-down state. -/
theorem posStep_quiescent (s : POSState) (e : PosEvent) (hs : quiescent s) :
    posStep s e = (s, []) := by
  obtain ⟨h1, h2, h3, h4⟩ := hs
  cases e with
  | paymentComplete tid d => simp [posStep, h4]
  | heartbeatResponse now => simp [posStep, h4]
  | timeoutFire tid => simp [posStep, fireTransactionTimeout, h2]
  | heartbeatTickAt now => simp [posStep, heartbeatTick, h3]
  | destroyCall =>
    cases s
    simp_all [posStep, POS_destroy]

/-- A torn-down state never emits any further effect and never changes. -/
theorem posRun_quiescent (tr : List PosEvent) (s : POSState)
    (hs : quiescent s) : posRun s tr = (s, []) := by
  induction tr with
  | nil => rfl
  | cons e es ih =>
    show (let r := posStep s e
          let rs := posRun r.1 es
          (rs.1, r.2 ++ rs.2)) = (s, [])
    rw [posStep_quiescent s e hs]
    simp [ih]

/-- C7 (confirmed): `destroy()` rejects every pending request with the
teardown ('Terminal destroyed' / ChannelClosed) error, clears the
heartbeat interval and every per-request timeout (given the class
invariant that every armed timeout belongs to a queued transaction), and
afterwards no timer owned by the instance fires: any further events
produce no effects at all and leave the state unchanged. -/
theorem C7_destroy_teardown (s : POSState) (tr : List PosEvent)
    (hsub : ∀ t ∈ s.activeTimeouts, t ∈ s.transactionQueue) :
    (posStep s PosEvent.destroyCall).2 =
      s.transactionQueue.map
        (fun t => PosEffect.outcome (TxnOutcome.rejectedDestroyed t)) ∧
    (posStep s PosEvent.destroyCall).1.transactionQueue = [] ∧
    (posStep s PosEvent.destroyCall).1.activeTimeouts = [] ∧
    (posStep s PosEvent.destroyCall).1.heartbeatActive = false ∧
    posRun (posStep s PosEvent.destroyCall).1 tr =
      ((posStep s PosEvent.destroyCall).1, []) := by
  have hto : (posStep s PosEvent.destroyCall).1.activeTimeouts = [] := by
    simp only [posStep, POS_destroy]
    rw [List.filter_eq_nil_iff]
    intro t htm
    simp [hsub t htm]
  refine ⟨?_, ?_, hto, ?_, ?_⟩
  · simp [posStep, POS_destroy, List.map_map, Function.comp]
  · simp [posStep, POS_destroy]
  · simp [posStep, POS_destroy]
  · apply posRun_quiescent
    exact ⟨by simp [posStep, POS_destroy], hto,
      by simp [posStep, POS_destroy], by simp [posStep, POS_destroy]⟩

/-- The spec's teardown scenario state: three outstanding requests. -/
def c7State : POSState :=
  { connectionState := "connected", transactionQueue := ["t1", "t2", "t3"],
    activeTimeouts := ["t1", "t2", "t3"], heartbeatActive := true,
    channelOpen := true }

/-- Events thrown at the instance after destroy, for the witness: a late
timeout fire, a heartbeat tick, a late response, another destroy. -/
def c7AfterTrace : List PosEvent :=
  [PosEvent.timeoutFire "t1", PosEvent.heartbeatTickAt 99,
   PosEvent.paymentComplete "t2" c6Data, PosEvent.heartbeatResponse 100,
   PosEvent.destroyCall]

/-- C7 witness: destroying with 3 outstanding requests rejects all three
with the teardown error and everything afterwards is inert. -/
theorem C7_destroy_teardown_witness :
    (∀ t ∈ c7State.activeTimeouts, t ∈ c7State.transactionQueue) ∧
    ((posStep c7State PosEvent.destroyCall).2 =
        c7State.transactionQueue.map
          (fun t => PosEffect.outcome (TxnOutcome.rejectedDestroyed t)) ∧
      (posStep c7State PosEvent.destroyCall).1.transactionQueue = [] ∧
      (posStep c7State PosEvent.destroyCall).1.activeTimeouts = [] ∧
      (posStep c7State PosEvent.destroyCall).1.heartbeatActive = false ∧
      posRun (posStep c7State PosEvent.destroyCall).1 c7AfterTrace =
        ((posStep c7State PosEvent.destroyCall).1, [])) :=
  ⟨by decide, C7_destroy_teardown c7State c7AfterTrace (by decide)⟩

/- ===== Claim C8: heartbeat liveness ===== -/

/-- A freshly connected instance with the heartbeat interval running and
no acknowledgment observed yet (`lastHeartbeat = 0`). -/
def c8Start : POSState :=
  { connectionState := "connected", heartbeatActive := true,
    lastHeartbeat := 0, channelOpen := true }

/-- Heartbeat ticks every 10 units; at the tick at 40 more than 3 intervals
(30000 ms) have passed without an acknowledgment; then an acknowledgment
arrives at 45000. -/
def c8Trace : List PosEvent :=
  [PosEvent.heartbeatTickAt 10000, PosEvent.heartbeatTickAt 20000,
   PosEvent.heartbeatTickAt 30000, PosEvent.heartbeatTickAt 40000,
   PosEvent.heartbeatResponse 45000]

/-- C8 counterexample: after the missed-acknowledgment threshold the state
becomes 'disconnected' (the code has no DEGRADED state), and the
subsequent heartbeat acknowledgment does NOT transition the instance back
to connected — `HEARTBEAT_RESPONSE` only updates `lastHeartbeat` — and no
connection-restored notification is emitted (no such effect exists in the
code): the run's effects are three heartbeat sends, one connection-lost
log and one reconnect attempt. -/
theorem C8_counterexample :
    (posRun c8Start c8Trace).1.connectionState = "disconnected" ∧
    (posRun c8Start c8Trace).1.lastHeartbeat = 45000 ∧
    (posRun c8Start c8Trace).2 =
      [PosEffect.sendHeartbeat, PosEffect.sendHeartbeat,
       PosEffect.sendHeartbeat, PosEffect.sendHeartbeat,
       PosEffect.logConnectionLost, PosEffect.reconnectAttempt] := by
  exact ⟨rfl, rfl, rfl⟩

/-- C8 (amended): with the 10000 ms heartbeat interval, a tick observed
while connected and more than 30000 ms (three intervals) after the last
acknowledgment sends the heartbeat, transitions
'connected' → 'disconnected' (no DEGRADED state exists), logs the
connection loss once and attempts a reconnect; every later tick while
disconnected merely throws 'Terminal not connected' (so the loss is not
logged again); and a heartbeat acknowledgment only updates
`lastHeartbeat` — it never restores the connected state and no
connection-restored notification exists. -/
theorem C8_amended_heartbeat (s s2 s3 : POSState) (now now2 now3 : Nat)
    (hact : s.heartbeatActive = true) (hconn : s.connectionState = "connected")
    (hstale : now - s.lastHeartbeat > 30000)
    (hact2 : s2.heartbeatActive = true)
    (hdis : s2.connectionState ≠ "connected")
    (hopen : s3.channelOpen = true) :
    heartbeatTick s now =
      ({ s with connectionState := "disconnected" },
       [PosEffect.sendHeartbeat, PosEffect.logConnectionLost,
        PosEffect.reconnectAttempt]) ∧
    heartbeatTick s2 now2 = (s2, [PosEffect.threwNotConnected]) ∧
    posStep s3 (PosEvent.heartbeatResponse now3) =
      ({ s3 with lastHeartbeat := now3 }, []) ∧
    ({ s3 with lastHeartbeat := now3 } : POSState).connectionState =
      s3.connectionState := by
  refine ⟨?_, ?_, ?_, rfl⟩
  · rw [heartbeatTick, if_neg (by rw [hact]; exact fun h => Bool.noConfusion h),
      if_neg (by rw [hconn]; exact fun h => h rfl), if_pos hstale]
  · rw [heartbeatTick, if_neg (by rw [hact2]; exact fun h => Bool.noConfusion h),
      if_pos hdis]
  · simp [posStep, hopen]

/-- C8 witness: the amended theorem at the concrete states reached in the
counterexample run. -/
theorem C8_amended_heartbeat_witness :
    (c8Start.heartbeatActive = true ∧
      c8Start.connectionState = "connected" ∧
      40000 - c8Start.lastHeartbeat > 30000 ∧
      (posRun c8Start c8Trace).1.heartbeatActive = true ∧
      (posRun c8Start c8Trace).1.connectionState ≠ "connected" ∧
      (posRun c8Start c8Trace).1.channelOpen = true) ∧
    (heartbeatTick c8Start 40000 =
        ({ c8Start with connectionState := "disconnected" },
         [PosEffect.sendHeartbeat, PosEffect.logConnectionLost,
          PosEffect.reconnectAttempt]) ∧
      heartbeatTick (posRun c8Start c8Trace).1 50000 =
        ((posRun c8Start c8Trace).1, [PosEffect.threwNotConnected]) ∧
      posStep (posRun c8Start c8Trace).1 (PosEvent.heartbeatResponse 55000) =
        ({ (posRun c8Start c8Trace).1 with lastHeartbeat := 55000 }, []) ∧
      ({ (posRun c8Start c8Trace).1 with
          lastHeartbeat := 55000 } : POSState).connectionState =
        (posRun c8Start c8Trace).1.connectionState) :=
  ⟨⟨by decide, by decide, by decide, by decide, by decide, by decide⟩,
   C8_amended_heartbeat c8Start (posRun c8Start c8Trace).1
     (posRun c8Start c8Trace).1 40000 50000 55000 (by decide) (by decide)
     (by decide) (by decide) (by decide) (by decide)⟩
